import Mathlib

/- Shallow embedding of src/app.py (Brand-brain-v0).

   The program looks up podcast reference data in two CSV tables, builds a
   fixed LLM prompt from brand details, post-processes and JSON-parses the
   LLM response, queries a vector store, and merges each hit with the two
   table lookups.  External effects (the CSV reads, the LLM endpoint, the
   vector store) are modelled as explicit parameters: a CSV read yields a
   `ReadOutcome` (rows or a read error), the LLM is a function from the
   request to its raw output text, the vector store is a function from the
   query and `k` to a list of scored documents. -/

namespace BrandBrain

/-- Cell values as they occur in the source's dictionaries: strings or
integral numerics. -/
inductive Cell where
  | str (v : String)
  | int (v : Int)
deriving DecidableEq

/-- Row of a CSV table: an association of column names to cell values. -/
abbrev Row := List (String × Cell)

/-- Outcome of `pd.read_csv`: the table's rows, or a read error (the
source's `except` branch). -/
inductive ReadOutcome where
  | ok (rows : List Row)
  | err

/-- Embedding of pandas `row.get(key, default)`: the value of the column
if present, the default otherwise. -/
def rowGet (r : Row) (k : String) (d : Cell) : Cell :=
  match r.find? (fun p => p.1 == k) with
  | some p => p.2
  | none => d

/-- Embedding of `df[df[col] == cid]` followed by `.iloc[0]` guarded by the
emptiness check: the first row whose `col` column equals `cid`. -/
def findRow (col : String) (cid : String) (rows : List Row) : Option Row :=
  rows.find? (fun r =>
    match r.find? (fun p => p.1 == col) with
    | some p => p.2 == Cell.str cid
    | none => false)

/-- Embedding of `get_podcast_details` (src/app.py lines 35-86).  The
result dictionary is an association list so that its key set is a real
property of the value.  `pods` is the outcome of reading `0_pods.csv`. -/
def get_podcast_details (pods : ReadOutcome) (client_id : String) :
    List (String × Cell) :=
  match pods with
  | .err =>
    [("name", .str ("Podcast " ++ client_id)),
     ("image", .str ""),
     ("summary", .str "Error loading details"),
     ("categories", .str ""),
     ("youtube_id", .str ""),
     ("spotify_id", .str ""),
     ("website_name", .str ""),
     ("rss_feed", .str "")]
  | .ok rows =>
    match findRow "id" client_id rows with
    | some row =>
      [("name", rowGet row "name" (.str "Unknown Podcast")),
       ("image", rowGet row "image" (.str "")),
       ("summary", rowGet row "summary" (.str "")),
       ("categories", rowGet row "categories" (.str "")),
       ("youtube_id", rowGet row "youtubeID" (.str "")),
       ("spotify_id", rowGet row "spotifyId" (.str "")),
       ("website_name", rowGet row "websiteName" (.str "")),
       ("rss_feed", rowGet row "rssFeed" (.str ""))]
    | none =>
      [("name", .str ("Podcast " ++ client_id)),
       ("image", .str ""),
       ("summary", .str "No details available"),
       ("categories", .str ""),
       ("youtube_id", .str ""),
       ("spotify_id", .str ""),
       ("website_name", .str ""),
       ("rss_feed", .str "")]

/-- Embedding of `get_podcast_stats` (src/app.py lines 88-133).  `stats`
is the outcome of reading `pods_stats.csv`. -/
def get_podcast_stats (stats : ReadOutcome) (client_id : String) :
    List (String × Cell) :=
  match stats with
  | .err =>
    [("min_impressions", .int 0),
     ("max_impressions", .int 0),
     ("youtube_subscribers", .int 0),
     ("instagram_followers", .int 0),
     ("episode_avg_views", .int 0),
     ("estimated_ad_price", .str "N/A")]
  | .ok rows =>
    match findRow "clientId" client_id rows with
    | some row =>
      [("min_impressions", rowGet row "min_impressions" (.int 0)),
       ("max_impressions", rowGet row "max_impressions" (.int 0)),
       ("youtube_subscribers", rowGet row "youtube_subscribers" (.int 0)),
       ("instagram_followers", rowGet row "instagram_followers" (.int 0)),
       ("episode_avg_views", rowGet row "episode_avg_views" (.int 0)),
       ("estimated_ad_price", rowGet row "estimated_ad_price" (.str "N/A"))]
    | none =>
      [("min_impressions", .int 0),
       ("max_impressions", .int 0),
       ("youtube_subscribers", .int 0),
       ("instagram_followers", .int 0),
       ("episode_avg_views", .int 0),
       ("estimated_ad_price", .str "N/A")]

/-- Runtime state visible to the two lookup functions: the two CSV tables
(as read outcomes).  Used to state the frame property. -/
structure World where
  pods : ReadOutcome
  stats : ReadOutcome

/-- State-passing form of `get_podcast_details`: the function only reads
the table, so it returns the world unchanged. -/
def get_podcast_details_call (w : World) (client_id : String) :
    (List (String × Cell)) × World :=
  (get_podcast_details w.pods client_id, w)

/-- State-passing form of `get_podcast_stats`. -/
def get_podcast_stats_call (w : World) (client_id : String) :
    (List (String × Cell)) × World :=
  (get_podcast_stats w.stats client_id, w)

/-- Literal 19-entry podcast category list, exactly as it appears in the
prompt, from "technology" through "tv&film". -/
def categoryListLiteral : String :=
  "[\n    \"technology\",\n    \"business\",\n    \"health&fitness\",\n    \"education\",\n    \"true_crime\",\n    \"news&politics\",\n    \"comedy\",\n    \"sports\",\n    \"kids&family\",\n    \"arts\",\n    \"society&culture\",\n    \"history\",\n    \"fiction\",\n    \"religion&spirituality\",\n    \"leisure\",\n    \"government\",\n    \"music\",\n    \"science\",\n    \"tv&film\"\n]"

/-- Part of the prompt text strictly before the category list. -/
def promptCatA : String :=
  "\nYou are an expert assistant helping brands find the most suitable podcasts to advertise on.\n\n---\n\n🎯 Objective:\nGiven a brand’s product, goals, and target audience, generate a detailed profile of the *ideal podcast* where this brand should advertise to maximize relevance, engagement, and return on investment (ROI).\n\nThis profile will be used to semantically match against real podcasts in a vector database, so your output must be **high-quality, structured, and JSON-parsable**.\n\n---\n\n🧠 Instructions:\n- DO NOT include any actual podcast or brand names.\n- DO NOT describe what kind of podcast \"would be ideal\" — instead, write as if the podcast already exists.\n- The podcast summary should be written in the **style of a real podcast description**, like those found on Spotify or Apple Podcasts.\n- Make the show feel real — use first/third-person style, include tone, audience, and topics.\n- Use only the details provided in the brand input — do not assume or hallucinate beyond that.\n- Carefully select podcast categories and stats that align with the brand\x27s size, audience, and goals.\n- The value of \x60\"podcast_details_string\"\x60 must be a **single JSON-safe string**: all line breaks must be escaped as \x60\\n\x60, and all internal quotes must be escaped if needed.\n- Use double quotes \x60\"\x60 for all JSON keys and string values.\n- Return JSON only — no markdown, no commentary, no code fences\n\n---\n\n📦 Choose only from this list of valid podcast categories:\n"

/-- Part of the prompt text strictly after the category list, up to the
`brand_details` interpolation point. -/
def promptCatB : String :=
  "\n\n---\n\n🧾 Output Format (strictly follow this format):\n\n\x7b\n  \"podcast_details_string\": \"<natural language summary of ideal podcast – audience, tone, topics>\nMain Category: <one from the list above>\nSubcategories: <comma-separated values from the list above>\n\nYouTube Subscribers: <integer>\nInstagram Followers: <integer>\nAverage Episode Views: <integer>\nImpressions Range: <min>-<max>\nEstimated Ad Price for 30s: <integer>$\nEstimated Ad Price for 60s: <integer>$\nEpisodes with Ads: <percentage>%\nAverage Sponsor Length: <seconds>\nAd Percentage Per Episode: <percentage>%\nAverage Ads Per Episode: <float>\nBrand Repeat Rate: <percentage>%\nTop Past Sponsors: [<brand1>, <brand2>, ...]\"\n\x7d\n\n---\n\n🔍 Brand Details:\n"

/-- Text of the prompt f-string of `get_required_podcast_details_for_brand`
(src/app.py lines 141-216) before the `brand_details` interpolation point.
The three pieces concatenate to exactly the source text of the f-string;
the category-list block of the source is the middle piece.  Braces that
are text are escaped as hex, as are the apostrophe and backtick
characters of the source text. -/
def promptPre : String :=
  promptCatA ++ categoryListLiteral ++ promptCatB

/-- Text of the prompt f-string after the `brand_details` interpolation
point (the final newline before the closing quotes). -/
def promptPost : String :=
  "\n"

/-- Embedding of the prompt construction: the f-string with
`brand_details` interpolated. -/
def promptFor (brand_details : String) : String :=
  promptPre ++ brand_details ++ promptPost

/-- Substring occurrence: `needle` appears verbatim inside `s`. -/
def OccursIn (needle s : String) : Prop :=
  ∃ u v, s = u ++ needle ++ v

/-- Embedding of the LLM request of src/app.py lines 218-222: the
arguments passed to `client.responses.create`. -/
structure LLMRequest where
  model : String
  input : String
  temperature : Int
deriving DecidableEq

/-- Request built by `get_required_podcast_details_for_brand` for a given
`brand_details` value. -/
def mkLLMRequest (brand_details : String) : LLMRequest :=
  { model := "gpt-4o", input := promptFor brand_details, temperature := 0 }

/-- Python whitespace characters stripped by `str.strip()` (the ASCII
whitespace set; the source texts contain no exotic unicode whitespace). -/
def isPyWs (c : Char) : Bool :=
  c == ' ' || c == '\t' || c == '\n' || c == '\r' || c == '\x0b' || c == '\x0c'

/-- Generic Python two-sided strip: drop characters satisfying `p` from
the front, then from the back (implemented by reversing). -/
def pyStripBy (p : Char → Bool) (s : List Char) : List Char :=
  ((s.dropWhile p).reverse.dropWhile p).reverse

/-- Embedding of Python `str.strip()` with no argument. -/
def pyStripWs (s : List Char) : List Char :=
  pyStripBy isPyWs s

/-- Backtick character (written as a hex escape). -/
def tick : Char := '\x60'

/-- Test for the backtick character. -/
def isTick (c : Char) : Bool := c == tick

/-- Embedding of Python `str.strip("\x60")`: all leading and trailing
backticks removed. -/
def stripTicks (s : List Char) : List Char :=
  pyStripBy isTick s

/-- Opening code-fence marker, three backticks. -/
def ticks3 : List Char := [tick, tick, tick]

/-- Boolean prefix test on character lists (Python `str.startswith`). -/
def startsWithL : List Char → List Char → Bool
  | [], _ => true
  | _ :: _, [] => false
  | p :: ps, c :: cs => p == c && startsWithL ps cs

/-- Fuel-driven worker for `delSub`.  Scans left to right; at each
position a match of `old` is removed in full, otherwise one character is
kept.  Fuel bounds the number of scan steps (each step consumes at least
one character, so `s.length` fuel always suffices). -/
def delSubAux (old : List Char) : Nat → List Char → List Char
  | _, [] => []
  | 0, s => s
  | fuel + 1, c :: rest =>
    if !old.isEmpty && startsWithL old (c :: rest) then
      delSubAux old fuel (List.drop (old.length - 1) rest)
    else
      c :: delSubAux old fuel rest

/-- Embedding of Python `s.replace(old, "")` for non-empty `old`: every
left-to-right non-overlapping occurrence of `old` is deleted. -/
def delSub (old s : List Char) : List Char :=
  delSubAux old s.length s

/-- Characters of the fence language tag "json". -/
def jsonTag : List Char := "json".data

/-- Characters of "json" followed by a newline (the first `replace` of
the source removes this longer pattern before the bare tag). -/
def jsonNlTag : List Char := "json\n".data

/-- Embedding of the response post-processing of
`get_required_podcast_details_for_brand` (src/app.py lines 224-228):
strip surrounding whitespace, and when the result opens with a code
fence, strip all leading and trailing backticks and delete the
occurrences of "json\n" and then "json" from the whole remaining text. -/
def clean_llm_output (raw : List Char) : List Char :=
  let so := pyStripWs raw
  if startsWithL ticks3 so then
    delSub jsonTag (delSub jsonNlTag (stripTicks so))
  else so

/-- JSON values, the shape of a parsed `json.loads` result. -/
inductive Json where
  | null
  | bool (b : Bool)
  | num (n : Int)
  | str (s : String)
  | arr (elems : List Json)
  | obj (fields : List (String × Json))

/-- Lookup of a key in a parsed JSON value: a value for top-level object
fields holding the key (objects produced by `json.loads` are
duplicate-free, so first-occurrence lookup is exact), `none` for absent
keys and for non-object values (Python raises and the source catches). -/
def jsonGet (j : Json) (k : String) : Option Json :=
  match j with
  | .obj fields =>
    match fields.find? (fun p => p.1 == k) with
    | some p => some p.2
    | none => none
  | _ => none

/-- Embedding of `get_required_podcast_details_for_brand` (src/app.py
lines 140-237).  `llm` is the external LLM endpoint (from the request to
its `output_text`); `parse` is `json.loads` (returning `none` when the
text is malformed and the call raises).  Python returns whatever value
sits under the key, and the empty string on any failure, so the result
is a `Json` value and the failure value is `Json.str ""`. -/
def get_required_podcast_details_for_brand (llm : LLMRequest → String)
    (parse : List Char → Option Json) (brand_details : String) : Json :=
  let cleaned := clean_llm_output (llm (mkLLMRequest brand_details)).data
  match parse cleaned with
  | none => Json.str ""
  | some j =>
    match jsonGet j "podcast_details_string" with
    | some v => v
    | none => Json.str ""

/-- Concrete LLM stub returning the valid JSON text of an empty object. -/
def llm0 : LLMRequest → String := fun _ => "\x7b\x7d"

/-- Concrete `json.loads` behaviour on the empty-object text: the text
"\x7b\x7d" is valid JSON and parses to the empty object. -/
def parse0 : List Char → Option Json := fun cs =>
  if cs == "\x7b\x7d".data then some (Json.obj []) else none

/-- Concrete LLM stub returning a fenced JSON payload holding the
expected key with a non-empty string value. -/
def llm1 : LLMRequest → String := fun _ =>
  "\x60\x60\x60json\n\x7b\"podcast_details_string\": \"ideal podcast\"\x7d\n\x60\x60\x60"

/-- Concrete `json.loads` behaviour on the fence-stripped payload of
`llm1` (the trailing newline is insignificant JSON whitespace). -/
def parse1 : List Char → Option Json := fun cs =>
  if cs == "\x7b\"podcast_details_string\": \"ideal podcast\"\x7d\n".data then
    some (Json.obj [("podcast_details_string", Json.str "ideal podcast")])
  else none

/-- Concrete fenced raw output whose payload holds the substring "json"
inside a key and inside a value. -/
def fencedExample : List Char :=
  "\x60\x60\x60json\n\x7b\"jsonKey\": \"ajsonb\"\x7d\n\x60\x60\x60".data

/-- Document returned by the vector store: page content and metadata
(the metadata values used by the source are identifier strings). -/
structure Document where
  page_content : String
  metadata : List (String × String)

/-- Lookup in a document's metadata (Python `dict.get`). -/
def mdGet (md : List (String × String)) (k : String) : Option String :=
  match md.find? (fun p => p.1 == k) with
  | some p => some p.2
  | none => none

/-- Embedding of the pod-id fallback chain of src/app.py line 253:
`metadata.get("pod_id", metadata.get("clientId", metadata.get("id",
"unknown")))`. -/
def podIdOf (md : List (String × String)) : String :=
  match mdGet md "pod_id" with
  | some v => v
  | none =>
    match mdGet md "clientId" with
    | some v => v
    | none =>
      match mdGet md "id" with
      | some v => v
      | none => "unknown"

/-- Merged result dictionary built for one vector hit: the keys of the
literal dict of src/app.py lines 259-278, as structure fields. -/
structure EnhancedResult where
  pod_id : String
  similarity_score : Int
  content : String
  metadata : List (String × String)
  name : Cell
  image : Cell
  summary : Cell
  categories : Cell
  youtube_id : Cell
  spotify_id : Cell
  website_name : Cell
  rss_feed : Cell
  min_impressions : Cell
  max_impressions : Cell
  youtube_subscribers : Cell
  instagram_followers : Cell
  episode_avg_views : Cell
  estimated_ad_price : Cell

/-- Python dictionary indexing `d[k]` on the lookup results.  Both
lookup dictionaries always carry their full key set (claim C10), so the
default branch is never reached on the keys the source uses. -/
def dget (d : List (String × Cell)) (k : String) : Cell :=
  match d.find? (fun p => p.1 == k) with
  | some p => p.2
  | none => Cell.str ""

/-- Merged dictionary for one (document, score) hit: the hit's score,
content and metadata together with the fields of the two lookups at the
hit's pod id (the loop body of src/app.py lines 251-280). -/
def mkEnhanced (pods stats : ReadOutcome) (doc : Document) (score : Int) :
    EnhancedResult :=
  let pod_id := podIdOf doc.metadata
  let podcast_details := get_podcast_details pods pod_id
  let podcast_stats := get_podcast_stats stats pod_id
  { pod_id := pod_id
    similarity_score := score
    content := doc.page_content
    metadata := doc.metadata
    name := dget podcast_details "name"
    image := dget podcast_details "image"
    summary := dget podcast_details "summary"
    categories := dget podcast_details "categories"
    youtube_id := dget podcast_details "youtube_id"
    spotify_id := dget podcast_details "spotify_id"
    website_name := dget podcast_details "website_name"
    rss_feed := dget podcast_details "rss_feed"
    min_impressions := dget podcast_stats "min_impressions"
    max_impressions := dget podcast_stats "max_impressions"
    youtube_subscribers := dget podcast_stats "youtube_subscribers"
    instagram_followers := dget podcast_stats "instagram_followers"
    episode_avg_views := dget podcast_stats "episode_avg_views"
    estimated_ad_price := dget podcast_stats "estimated_ad_price" }

/-- Embedding of `get_enhanced_podcast_results` (src/app.py lines
239-282): the loop appends one merged dictionary per hit. -/
def get_enhanced_podcast_results (pods stats : ReadOutcome)
    (vector_results : List (Document × Int)) : List EnhancedResult :=
  vector_results.foldl
    (fun enhanced_results p =>
      enhanced_results ++ [mkEnhanced pods stats p.1 p.2]) []

/-- Embedding of `search_for_podcasts` (src/app.py lines 284-312).
`store` is the vector store's `similarity_search_with_score` endpoint,
queried with the LLM-derived value and `k = 5`. -/
def search_for_podcasts (llm : LLMRequest → String)
    (parse : List Char → Option Json)
    (store : Json → Nat → List (Document × Int))
    (pods stats : ReadOutcome) (brand_details : String) : List EnhancedResult :=
  let llm_result := get_required_podcast_details_for_brand llm parse brand_details
  let vector_results := store llm_result 5
  get_enhanced_podcast_results pods stats vector_results

/-- Concrete two-document store honoring the requested `k`, with scores
in ascending order. -/
def store0 : Json → Nat → List (Document × Int) := fun _ k =>
  ([(⟨"doc one", [("pod_id", "p1")]⟩, 2),
    (⟨"doc two", [("clientId", "p2")]⟩, 7)] : List (Document × Int)).take k

theorem strAppend_assoc (a b c : String) : a ++ b ++ c = a ++ (b ++ c) := by
  cases a with
  | mk da =>
    cases b with
    | mk db =>
      cases c with
      | mk dc => exact congrArg String.mk (List.append_assoc da db dc)

/-- C3: for every brand_details value, the prompt contains the literal
19-entry category list (from "technology" through "tv&film") verbatim as
a substring. -/
theorem claim_C3 (brand_details : String) :
    OccursIn categoryListLiteral (promptFor brand_details) := by
  refine ⟨promptCatA, promptCatB ++ brand_details ++ promptPost, ?_⟩
  rw [promptFor, promptPre]
  simp only [strAppend_assoc]

/-- C6: every LLM invocation uses temperature zero, the fixed model, and
the single fixed prompt template: the input of every request is the fixed
template text around the interpolated brand_details value. -/
theorem claim_C6 :
    (∀ brand_details, (mkLLMRequest brand_details).temperature = 0 ∧
      (mkLLMRequest brand_details).model = "gpt-4o") ∧
    ∃ pre post, ∀ brand_details,
      (mkLLMRequest brand_details).input = pre ++ brand_details ++ post :=
  ⟨fun _ => ⟨rfl, rfl⟩, promptPre, promptPost, fun _ => rfl⟩

/-- C2: for every client id, both lookups are total functions; a missing
key yields the documented default dictionary (placeholder name, zero and
"N/A" metrics) and a read error yields the error placeholder dictionary,
never a propagated exception. -/
theorem claim_C2 (client_id : String) (rows srows : List Row)
    (hd : findRow "id" client_id rows = none)
    (hs : findRow "clientId" client_id srows = none) :
    get_podcast_details (.ok rows) client_id =
      [("name", .str ("Podcast " ++ client_id)), ("image", .str ""),
       ("summary", .str "No details available"), ("categories", .str ""),
       ("youtube_id", .str ""), ("spotify_id", .str ""),
       ("website_name", .str ""), ("rss_feed", .str "")] ∧
    get_podcast_details .err client_id =
      [("name", .str ("Podcast " ++ client_id)), ("image", .str ""),
       ("summary", .str "Error loading details"), ("categories", .str ""),
       ("youtube_id", .str ""), ("spotify_id", .str ""),
       ("website_name", .str ""), ("rss_feed", .str "")] ∧
    get_podcast_stats (.ok srows) client_id =
      [("min_impressions", .int 0), ("max_impressions", .int 0),
       ("youtube_subscribers", .int 0), ("instagram_followers", .int 0),
       ("episode_avg_views", .int 0), ("estimated_ad_price", .str "N/A")] ∧
    get_podcast_stats .err client_id =
      [("min_impressions", .int 0), ("max_impressions", .int 0),
       ("youtube_subscribers", .int 0), ("instagram_followers", .int 0),
       ("episode_avg_views", .int 0), ("estimated_ad_price", .str "N/A")] := by
  refine ⟨?_, rfl, ?_, rfl⟩
  · simp [get_podcast_details, hd]
  · simp [get_podcast_stats, hs]

/-- Witness for C2 at a concrete absent key and concrete tables. -/
theorem claim_C2_witness :
    get_podcast_details (.ok [[("id", .str "a")]]) "x" =
      [("name", .str ("Podcast " ++ "x")), ("image", .str ""),
       ("summary", .str "No details available"), ("categories", .str ""),
       ("youtube_id", .str ""), ("spotify_id", .str ""),
       ("website_name", .str ""), ("rss_feed", .str "")] ∧
    get_podcast_details .err "x" =
      [("name", .str ("Podcast " ++ "x")), ("image", .str ""),
       ("summary", .str "Error loading details"), ("categories", .str ""),
       ("youtube_id", .str ""), ("spotify_id", .str ""),
       ("website_name", .str ""), ("rss_feed", .str "")] ∧
    get_podcast_stats (.ok []) "x" =
      [("min_impressions", .int 0), ("max_impressions", .int 0),
       ("youtube_subscribers", .int 0), ("instagram_followers", .int 0),
       ("episode_avg_views", .int 0), ("estimated_ad_price", .str "N/A")] ∧
    get_podcast_stats .err "x" =
      [("min_impressions", .int 0), ("max_impressions", .int 0),
       ("youtube_subscribers", .int 0), ("instagram_followers", .int 0),
       ("episode_avg_views", .int 0), ("estimated_ad_price", .str "N/A")] :=
  claim_C2 "x" [[("id", .str "a")]] [] (by decide) (by decide)

/-- C7: neither lookup mutates the tables or any other persistent state:
in state-passing form both calls return the world unchanged. -/
theorem claim_C7 (w : World) (client_id : String) :
    (get_podcast_details_call w client_id).2 = w ∧
    (get_podcast_stats_call w client_id).2 = w :=
  ⟨rfl, rfl⟩

/-- C10: every return path of `get_podcast_details` yields exactly the
eight documented keys in order, and every return path of
`get_podcast_stats` yields exactly the six documented keys, whether the
row is found, the key is missing, or a read error occurs. -/
theorem claim_C10 (o : ReadOutcome) (client_id : String) :
    (get_podcast_details o client_id).map Prod.fst =
      ["name", "image", "summary", "categories", "youtube_id",
       "spotify_id", "website_name", "rss_feed"] ∧
    (get_podcast_stats o client_id).map Prod.fst =
      ["min_impressions", "max_impressions", "youtube_subscribers",
       "instagram_followers", "episode_avg_views", "estimated_ad_price"] := by
  constructor
  · cases o with
    | err => rfl
    | ok rows =>
      cases h : findRow "id" client_id rows with
      | none => simp [get_podcast_details, h]
      | some row => simp [get_podcast_details, h]
  · cases o with
    | err => rfl
    | ok rows =>
      cases h : findRow "clientId" client_id rows with
      | none => simp [get_podcast_stats, h]
      | some row => simp [get_podcast_stats, h]

theorem head?_dropWhile_not (p : Char → Bool) (l : List Char) :
    ∀ c, (l.dropWhile p).head? = some c → p c = false := by
  induction l with
  | nil => intro c h; simp at h
  | cons a t ih =>
    intro c h
    by_cases hp : p a = true
    · rw [List.dropWhile_cons_of_pos hp] at h
      exact ih c h
    · rw [List.dropWhile_cons_of_neg hp] at h
      simp at h
      rw [← h]
      exact Bool.eq_false_iff.mpr hp

theorem getLast?_dropWhile_of_ne_nil (p : Char → Bool) (l : List Char)
    (h : l.dropWhile p ≠ []) : (l.dropWhile p).getLast? = l.getLast? := by
  induction l with
  | nil => simp at h
  | cons a t ih =>
    by_cases hp : p a = true
    · rw [List.dropWhile_cons_of_pos hp] at h ⊢
      have ht : t ≠ [] := by
        intro hnil
        rw [hnil] at h
        simp at h
      rw [ih h]
      cases t with
      | nil => exact absurd rfl ht
      | cons b t2 => exact (List.getLast?_cons_cons).symm
    · rw [List.dropWhile_cons_of_neg hp]

/-- C1 (amended): if the fence-stripped response text is valid JSON whose
top level holds the key "podcast_details_string", the function returns
that key's value (so a non-empty string value yields that non-empty
string); if the text is malformed JSON, or is valid JSON lacking the key,
the function returns the empty string. -/
theorem claim_C1 (llm : LLMRequest → String) (parse : List Char → Option Json)
    (brand_details : String) :
    (parse (clean_llm_output (llm (mkLLMRequest brand_details)).data) = none →
      get_required_podcast_details_for_brand llm parse brand_details = Json.str "") ∧
    (∀ j v,
      parse (clean_llm_output (llm (mkLLMRequest brand_details)).data) = some j →
      jsonGet j "podcast_details_string" = some v →
      get_required_podcast_details_for_brand llm parse brand_details = v) ∧
    (∀ j,
      parse (clean_llm_output (llm (mkLLMRequest brand_details)).data) = some j →
      jsonGet j "podcast_details_string" = none →
      get_required_podcast_details_for_brand llm parse brand_details = Json.str "") := by
  refine ⟨fun h => ?_, fun j v h hk => ?_, fun j h hk => ?_⟩
  · simp [get_required_podcast_details_for_brand, h]
  · simp [get_required_podcast_details_for_brand, h, hk]
  · simp [get_required_podcast_details_for_brand, h, hk]

/-- Witness for C1 (amended): a fenced valid payload with the key yields
the key's non-empty string; the valid empty-object text yields "". -/
theorem claim_C1_witness :
    get_required_podcast_details_for_brand llm1 parse1 "brand" =
      Json.str "ideal podcast" ∧
    get_required_podcast_details_for_brand llm0 parse0 "brand" = Json.str "" :=
  ⟨(claim_C1 llm1 parse1 "brand").2.1
      (Json.obj [("podcast_details_string", Json.str "ideal podcast")])
      (Json.str "ideal podcast") rfl rfl,
   (claim_C1 llm0 parse0 "brand").2.2 (Json.obj []) rfl rfl⟩

/-- Counterexample to C1 as stated: the response text "\x7b\x7d" is valid
JSON (it parses to the empty object), yet the function returns the empty
string, because the parsed object lacks the expected key. -/
theorem claim_C1_counterexample :
    ¬ ∀ (llm : LLMRequest → String) (parse : List Char → Option Json)
        (brand_details : String) (j : Json),
        parse (clean_llm_output (llm (mkLLMRequest brand_details)).data) = some j →
        ∃ s, get_required_podcast_details_for_brand llm parse brand_details =
          Json.str s ∧ s ≠ "" := by
  intro h
  obtain ⟨s, hs, hne⟩ := h llm0 parse0 "brand" (Json.obj []) rfl
  have h2 : get_required_podcast_details_for_brand llm0 parse0 "brand" =
      Json.str "" := rfl
  rw [h2] at hs
  injection hs with h3
  exact hne h3.symm

/-- C8: when the stripped raw output opens with a code fence, the text is
stripped of all leading and trailing backticks (the stripped form neither
begins nor ends with a backtick), and then the deletion of "json\n" and
"json" applies to the entire remaining text, not only the fence tag: on a
payload holding "json" inside a key and inside a value, both occurrences
are deleted. -/
theorem claim_C8 :
    (∀ raw : List Char,
      (∀ c, (stripTicks raw).head? = some c → c ≠ tick) ∧
      (∀ c, (stripTicks raw).getLast? = some c → c ≠ tick)) ∧
    (∀ raw : List Char, startsWithL ticks3 (pyStripWs raw) = true →
      clean_llm_output raw =
        delSub jsonTag (delSub jsonNlTag (stripTicks (pyStripWs raw)))) ∧
    clean_llm_output fencedExample = "\x7b\"Key\": \"ab\"\x7d\n".data := by
  refine ⟨fun raw => ⟨fun c hc => ?_, fun c hc => ?_⟩, fun raw h => ?_, rfl⟩
  · rw [stripTicks, pyStripBy, List.head?_reverse] at hc
    have hne : (((raw.dropWhile isTick).reverse).dropWhile isTick) ≠ [] := by
      intro hnil
      rw [hnil] at hc
      simp at hc
    rw [getLast?_dropWhile_of_ne_nil isTick _ hne, List.getLast?_reverse] at hc
    have := head?_dropWhile_not isTick raw c hc
    simpa [isTick] using this
  · rw [stripTicks, pyStripBy, List.getLast?_reverse] at hc
    have := head?_dropWhile_not isTick (raw.dropWhile isTick).reverse c hc
    simpa [isTick] using this
  · simp [clean_llm_output, h]

/-- Witness for C8 at the concrete fenced example: its tick-stripped form
opens with a non-backtick character, the cleaning applies the deletions
to the whole stripped text, and the occurrences of "json" inside the
payload's key and value are deleted. -/
theorem claim_C8_witness :
    ('j' ≠ tick) ∧
    clean_llm_output fencedExample =
      delSub jsonTag (delSub jsonNlTag (stripTicks (pyStripWs fencedExample))) ∧
    clean_llm_output fencedExample = "\x7b\"Key\": \"ab\"\x7d\n".data :=
  ⟨(claim_C8.1 fencedExample).1 'j' rfl,
   claim_C8.2.1 fencedExample rfl,
   claim_C8.2.2⟩

theorem enhanced_eq_map (pods stats : ReadOutcome)
    (vr : List (Document × Int)) :
    get_enhanced_podcast_results pods stats vr =
      vr.map (fun p => mkEnhanced pods stats p.1 p.2) := by
  have gen : ∀ (l : List (Document × Int)) (acc : List EnhancedResult),
      l.foldl (fun a p => a ++ [mkEnhanced pods stats p.1 p.2]) acc =
        acc ++ l.map (fun p => mkEnhanced pods stats p.1 p.2) := by
    intro l
    induction l with
    | nil => intro acc; simp
    | cons x xs ih => intro acc; simp [ih]
  simpa [get_enhanced_podcast_results] using gen vr []

/-- C5: the merge produces exactly one dictionary per vector hit, in the
same order, carrying the hit's score, page content and metadata
unchanged together with the fields of the two lookups at the hit's pod
id; and `search_for_podcasts` requests top-k with k = 5, so whenever the
store honors the requested k it returns at most 5 results. -/
theorem claim_C5 (pods stats : ReadOutcome) (vr : List (Document × Int)) :
    (get_enhanced_podcast_results pods stats vr).length = vr.length ∧
    (get_enhanced_podcast_results pods stats vr).map
        (fun e => (e.pod_id, e.similarity_score, e.content, e.metadata)) =
      vr.map (fun p =>
        (podIdOf p.1.metadata, p.2, p.1.page_content, p.1.metadata)) ∧
    (get_enhanced_podcast_results pods stats vr).map
        (fun e => (e.name, e.image, e.summary, e.categories, e.youtube_id,
          e.spotify_id, e.website_name, e.rss_feed, e.min_impressions,
          e.max_impressions, e.youtube_subscribers, e.instagram_followers,
          e.episode_avg_views, e.estimated_ad_price)) =
      vr.map (fun p =>
        (dget (get_podcast_details pods (podIdOf p.1.metadata)) "name",
         dget (get_podcast_details pods (podIdOf p.1.metadata)) "image",
         dget (get_podcast_details pods (podIdOf p.1.metadata)) "summary",
         dget (get_podcast_details pods (podIdOf p.1.metadata)) "categories",
         dget (get_podcast_details pods (podIdOf p.1.metadata)) "youtube_id",
         dget (get_podcast_details pods (podIdOf p.1.metadata)) "spotify_id",
         dget (get_podcast_details pods (podIdOf p.1.metadata)) "website_name",
         dget (get_podcast_details pods (podIdOf p.1.metadata)) "rss_feed",
         dget (get_podcast_stats stats (podIdOf p.1.metadata)) "min_impressions",
         dget (get_podcast_stats stats (podIdOf p.1.metadata)) "max_impressions",
         dget (get_podcast_stats stats (podIdOf p.1.metadata)) "youtube_subscribers",
         dget (get_podcast_stats stats (podIdOf p.1.metadata)) "instagram_followers",
         dget (get_podcast_stats stats (podIdOf p.1.metadata)) "episode_avg_views",
         dget (get_podcast_stats stats (podIdOf p.1.metadata)) "estimated_ad_price")) ∧
    (∀ (llm : LLMRequest → String) (parse : List Char → Option Json)
        (store : Json → Nat → List (Document × Int)) (brand_details : String),
      (∀ q k, (store q k).length ≤ k) →
      (search_for_podcasts llm parse store pods stats brand_details).length ≤ 5) := by
  refine ⟨?_, ?_, ?_, ?_⟩
  · rw [enhanced_eq_map, List.length_map]
  · rw [enhanced_eq_map, List.map_map]
    rfl
  · rw [enhanced_eq_map, List.map_map]
    rfl
  · intro llm parse store brand_details hstore
    simp only [search_for_podcasts]
    rw [enhanced_eq_map, List.length_map]
    exact hstore _ 5

/-- Witness for C5: a concrete store honoring k yields at most 5 search
results. -/
theorem claim_C5_witness :
    (search_for_podcasts llm0 parse0 store0 .err .err "brand").length ≤ 5 :=
  (claim_C5 .err .err []).2.2.2 llm0 parse0 store0 "brand"
    (fun q k => by
      simp only [store0, List.length_take]
      exact Nat.min_le_left _ _)

/-- C4: the merge preserves the order and the scores of the vector
store's hits, so whenever the store's top-k result scores are in
non-decreasing order, the list returned by `search_for_podcasts` is in
non-decreasing order of its similarity_score field. -/
theorem claim_C4 (llm : LLMRequest → String) (parse : List Char → Option Json)
    (store : Json → Nat → List (Document × Int)) (pods stats : ReadOutcome)
    (brand_details : String)
    (hsorted : List.Chain' (fun a b => a ≤ b)
      ((store (get_required_podcast_details_for_brand llm parse brand_details)
        5).map Prod.snd)) :
    List.Chain' (fun a b => a ≤ b)
      ((search_for_podcasts llm parse store pods stats brand_details).map
        (fun e => e.similarity_score)) := by
  have hmap : (search_for_podcasts llm parse store pods stats brand_details).map
      (fun e => e.similarity_score) =
      (store (get_required_podcast_details_for_brand llm parse brand_details)
        5).map Prod.snd := by
    simp only [search_for_podcasts]
    rw [enhanced_eq_map, List.map_map]
    rfl
  rwa [hmap]

/-- Witness for C4 at a concrete store with ascending scores. -/
theorem claim_C4_witness :
    List.Chain' (fun a b => a ≤ b)
      ((search_for_podcasts llm0 parse0 store0 .err .err "brand").map
        (fun e => e.similarity_score)) :=
  claim_C4 llm0 parse0 store0 .err .err "brand" (by
    have h : ((store0 (get_required_podcast_details_for_brand llm0 parse0
        "brand") 5).map Prod.snd) = [2, 7] := rfl
    rw [h]
    exact List.chain'_cons.mpr ⟨by norm_num, List.chain'_singleton _⟩)

/-- C9: the pod id of a hit is derived by the fixed fallback chain over
its metadata: the value at "pod_id" if present, else at "clientId", else
at "id", else the literal "unknown"; when all three keys are absent both
table lookups run on "unknown" and, when the tables have no such key,
they yield their placeholder records. -/
theorem claim_C9 (md : List (String × String)) :
    (∀ v, mdGet md "pod_id" = some v → podIdOf md = v) ∧
    (mdGet md "pod_id" = none →
      ∀ v, mdGet md "clientId" = some v → podIdOf md = v) ∧
    (mdGet md "pod_id" = none → mdGet md "clientId" = none →
      ∀ v, mdGet md "id" = some v → podIdOf md = v) ∧
    (mdGet md "pod_id" = none → mdGet md "clientId" = none →
      mdGet md "id" = none →
      podIdOf md = "unknown" ∧
      ∀ rows srows, findRow "id" "unknown" rows = none →
        findRow "clientId" "unknown" srows = none →
        get_podcast_details (.ok rows) (podIdOf md) =
          [("name", .str ("Podcast " ++ "unknown")), ("image", .str ""),
           ("summary", .str "No details available"), ("categories", .str ""),
           ("youtube_id", .str ""), ("spotify_id", .str ""),
           ("website_name", .str ""), ("rss_feed", .str "")] ∧
        get_podcast_stats (.ok srows) (podIdOf md) =
          [("min_impressions", .int 0), ("max_impressions", .int 0),
           ("youtube_subscribers", .int 0), ("instagram_followers", .int 0),
           ("episode_avg_views", .int 0), ("estimated_ad_price", .str "N/A")]) := by
  refine ⟨fun v hv => ?_, fun h1 v hv => ?_, fun h1 h2 v hv => ?_,
    fun h1 h2 h3 => ?_⟩
  · simp [podIdOf, hv]
  · simp [podIdOf, h1, hv]
  · simp [podIdOf, h1, h2, hv]
  · have hid : podIdOf md = "unknown" := by simp [podIdOf, h1, h2, h3]
    refine ⟨hid, fun rows srows hr hsr => ?_⟩
    rw [hid]
    exact ⟨by simp [get_podcast_details, hr], by simp [get_podcast_stats, hsr]⟩

/-- Witness for C9: a present "pod_id" key wins, and with all three keys
absent the lookups run on "unknown" and yield the placeholders. -/
theorem claim_C9_witness :
    podIdOf [("pod_id", "p9")] = "p9" ∧
    (podIdOf [("other", "z")] = "unknown" ∧
      get_podcast_details (.ok []) (podIdOf [("other", "z")]) =
        [("name", .str ("Podcast " ++ "unknown")), ("image", .str ""),
         ("summary", .str "No details available"), ("categories", .str ""),
         ("youtube_id", .str ""), ("spotify_id", .str ""),
         ("website_name", .str ""), ("rss_feed", .str "")] ∧
      get_podcast_stats (.ok []) (podIdOf [("other", "z")]) =
        [("min_impressions", .int 0), ("max_impressions", .int 0),
         ("youtube_subscribers", .int 0), ("instagram_followers", .int 0),
         ("episode_avg_views", .int 0), ("estimated_ad_price", .str "N/A")]) := by
  refine ⟨(claim_C9 [("pod_id", "p9")]).1 "p9" rfl, ?_⟩
  obtain ⟨ha, hb⟩ := (claim_C9 [("other", "z")]).2.2.2 rfl rfl rfl
  exact ⟨ha, (hb [] [] rfl rfl).1, (hb [] [] rfl rfl).2⟩

end BrandBrain

